import Mathlib

/-!
Shallow embedding of the SkyDB revision-cache and read/write orchestration
from `src/skydb.ts` of the skynet-js repository, together with the
encrypted-file padding arithmetic pinned down by the repository's test suite.

Conventions of the embedding:
* JavaScript `bigint` values are embedded as `Int`.
* `Uint8Array` values are embedded as `List Nat` (each element one byte).
* The revision cache `client.revisionNumberCache` (a string-keyed object with
  `bigint` values, `undefined` on missing keys) is embedded as
  `String → Option Int`.
* Collaborator I/O (registry getEntry/setEntry, upload, download) is passed in
  as an explicit outcome parameter (`Except String _`), since the orchestrator
  treats each collaborator as an opaque effect that either produces a value or
  throws.
* A JavaScript `throw` is embedded as `Except.error` carrying the message; the
  stateful functions return the resulting cache alongside the result, and a
  function that throws before mutating the cache returns the input cache
  unchanged.
-/

/-- Key of the revision-number cache, from `getCacheKey` in skydb.ts:
the string `publicKey + "/" + dataKey`. -/
def getCacheKey (publicKey dataKey : String) : String :=
  publicKey ++ "/" ++ dataKey

/-- The revision-number cache attached to the client
(`client.revisionNumberCache`): a map from cache key to `bigint`,
`none` meaning the key is absent (`undefined`). -/
abbrev RevisionCache := String → Option Int

/-- `UNCACHED_REVISION_NUMBER = BigInt(-1)` from skydb.ts. -/
def UNCACHED_REVISION_NUMBER : Int := -1

/-- Modelled from the spec: `MAX_REVISION` is imported from `utils/number`,
which is not part of the sources; the spec states that revisions have a
defined maximum and registry revisions are unsigned 64-bit counters, so the
maximum allowed revision is 2^64 - 1. -/
def MAX_REVISION : Int := 2 ^ 64 - 1

/-- The effective cached revision for a key: the stored value, with an absent
entry read as the uncached sentinel -1 (spec data model: "no entry meaning
unknown, treat as revision -1"; code: `cachedRevision ?? UNCACHED_REVISION_NUMBER`). -/
def cachedRevision (cache : RevisionCache) (key : String) : Int :=
  (cache key).getD UNCACHED_REVISION_NUMBER

/-- Error message thrown by `incrementRevision` in skydb.ts. -/
def maxRevisionErrMsg : String :=
  "Current entry already has maximum allowed revision, could not update the entry"

/-- `incrementRevision` from skydb.ts: adds one and throws if the result
exceeds `MAX_REVISION`. -/
def incrementRevision (revision : Int) : Except String Int :=
  let revision := revision + 1
  if revision > MAX_REVISION then .error maxRevisionErrMsg
  else .ok revision

/-- `incrementCachedRevision` from skydb.ts: reads the cached revision
(defaulting to the uncached sentinel), increments it via `incrementRevision`,
and on success stores the new revision in the cache and returns it. When
`incrementRevision` throws, the cache-update line is never reached, so the
cache is returned unchanged. -/
def incrementCachedRevision (cache : RevisionCache) (publicKey dataKey : String) :
    Except String Int × RevisionCache :=
  let cacheKey := getCacheKey publicKey dataKey
  let revision := (cache cacheKey).getD UNCACHED_REVISION_NUMBER
  match incrementRevision revision with
  | .error e => (.error e, cache)
  | .ok newRevision =>
    (.ok newRevision, fun k => if k = cacheKey then some newRevision else cache k)

/-- `decrementCachedRevision` from skydb.ts:
`client.revisionNumberCache[cacheKey] -= BigInt(1)`. Its only call sites run
after a successful `incrementCachedRevision`, so the key is present; on a
present key the stored value is decremented by one. -/
def decrementCachedRevision (cache : RevisionCache) (publicKey dataKey : String) :
    RevisionCache :=
  let cacheKey := getCacheKey publicKey dataKey
  fun k => if k = cacheKey then (cache k).map (fun v => v - 1) else cache k

/-- Modelled from the spec: `RAW_SKYLINK_SIZE` comes from `skylink/sia`, which
is not part of the sources; it is the fixed raw binary content-address
(skylink) length, 34 bytes (2 bytes bitfield + 32 bytes merkle root). -/
def RAW_SKYLINK_SIZE : Nat := 34

/-- Modelled from the spec: `BASE64_ENCODED_SKYLINK_SIZE` comes from
`skylink/sia`, which is not part of the sources; it is the legacy fixed
base64-encoded skylink string length, 46 characters. -/
def BASE64_ENCODED_SKYLINK_SIZE : Nat := 46

/-- Modelled from the spec: `MAX_ENTRY_LENGTH` comes from `mysky`, which is not
part of the sources; the spec fixes the maximum raw registry-entry payload
length at 70 bytes. -/
def MAX_ENTRY_LENGTH : Nat := 70

/-- `DELETION_ENTRY_DATA = new Uint8Array(RAW_SKYLINK_SIZE)` from skydb.ts:
the all-zero deletion sentinel. -/
def DELETION_ENTRY_DATA : List Nat := List.replicate RAW_SKYLINK_SIZE 0

/-- Modelled from the spec: `EMPTY_SKYLINK` comes from `skylink/sia`, which is
not part of the sources; the spec defines the deletion sentinel as the all-zero
byte string of the binary skylink length. -/
def EMPTY_SKYLINK : List Nat := List.replicate RAW_SKYLINK_SIZE 0

/-- Modelled from the spec: `areEqualUint8Arrays` comes from `utils/array`,
which is not part of the sources; the spec requires byte-for-byte equality. -/
def areEqualUint8Arrays (a b : List Nat) : Bool :=
  a == b

/-- A registry entry, from `RegistryEntry` in registry.ts (not under the
sources, but its shape is fixed by skydb.ts and the spec):
`{ dataKey: string, data: Uint8Array, revision: bigint }`. -/
structure RegistryEntry where
  dataKey : String
  data : List Nat
  revision : Int
deriving DecidableEq

/-- Validation error thrown by `validateEntryData` for oversized data
(static part of the `throwValidationError` message). -/
def entryDataTooLargeErrMsg : String :=
  "Expected parameter data to be Uint8Array of length <= 70"

/-- Error thrown by `validateEntryData` when the data equals the deletion
sentinel and deletion was not explicitly allowed. -/
def deletionSentinelErrMsg : String :=
  "Tried to set Uint8Array entry data that is the deletion sentinel, please use the deleteEntryData method instead"

/-- `validateEntryData` from skydb.ts: rejects data longer than
`MAX_ENTRY_LENGTH`, then rejects data equal to the deletion sentinel unless
`allowDeletionEntryData` is set. -/
def validateEntryData (data : List Nat) (allowDeletionEntryData : Bool) :
    Except String Unit :=
  if data.length > MAX_ENTRY_LENGTH then .error entryDataTooLargeErrMsg
  else if !allowDeletionEntryData && areEqualUint8Arrays data DELETION_ENTRY_DATA then
    .error deletionSentinelErrMsg
  else .ok ()

/-- `setEntryData` from skydb.ts, after resolution of the owner public key from
the private key (key derivation is collaborator crypto, so the public key is a
parameter). Synchronous validation runs first; then the cached revision is
optimistically incremented; then the registry collaborator stores the entry
(outcome passed as `setEntryResult`); on collaborator failure the increment is
reverted via `decrementCachedRevision` and the error is re-thrown. On success
the model returns the `RegistryEntry` handed to `registry.setEntry`, so the
reserved revision is observable. -/
def setEntryData (cache : RevisionCache) (publicKey dataKey : String)
    (data : List Nat) (allowDeletionEntryData : Bool)
    (setEntryResult : Except String Unit) :
    Except String RegistryEntry × RevisionCache :=
  match validateEntryData data allowDeletionEntryData with
  | .error e => (.error e, cache)
  | .ok _ =>
    match incrementCachedRevision cache publicKey dataKey with
    | (.error e, cache1) => (.error e, cache1)
    | (.ok newRevision, cache1) =>
      let entry : RegistryEntry := ⟨dataKey, data, newRevision⟩
      match setEntryResult with
      | .error e => (.error e, decrementCachedRevision cache1 publicKey dataKey)
      | .ok _ => (.ok entry, cache1)

/-- `setJSON` from skydb.ts, after resolution of the owner public key. The
cached revision is incremented first; then `getOrCreateRegistryEntry` uploads
the wrapped JSON to obtain the raw data link (outcome `uploadResult`, carrying
the raw skylink bytes on success) and the registry collaborator stores the
entry (outcome `setEntryResult`). Any failure inside the try block reverts the
increment and re-throws. On success the model returns the `RegistryEntry`
handed to `registry.setEntry`. -/
def setJSON (cache : RevisionCache) (publicKey dataKey : String)
    (uploadResult : Except String (List Nat))
    (setEntryResult : Except String Unit) :
    Except String RegistryEntry × RevisionCache :=
  match incrementCachedRevision cache publicKey dataKey with
  | (.error e, cache1) => (.error e, cache1)
  | (.ok newRevision, cache1) =>
    match uploadResult with
    | .error e => (.error e, decrementCachedRevision cache1 publicKey dataKey)
    | .ok rawDataLink =>
      let entry : RegistryEntry := ⟨dataKey, rawDataLink, newRevision⟩
      match setEntryResult with
      | .error e => (.error e, decrementCachedRevision cache1 publicKey dataKey)
      | .ok _ => (.ok entry, cache1)

/-- `deleteEntryData` from skydb.ts: calls `setEntryData` with
`DELETION_ENTRY_DATA` and options `{ ...customOptions, allowDeletionEntryData: true }`.
The spread places the literal `true` after any caller-supplied value, so the
caller's `allowDeletionEntryData` (parameter `customAllowDeletionEntryData`)
is always overridden. -/
def deleteEntryData (cache : RevisionCache) (publicKey dataKey : String)
    (customAllowDeletionEntryData : Option Bool)
    (setEntryResult : Except String Unit) :
    Except String RegistryEntry × RevisionCache :=
  setEntryData cache publicKey dataKey DELETION_ENTRY_DATA true setEntryResult

/-- `deleteJSON` from skydb.ts: calls `setEntryData` with
`DELETION_ENTRY_DATA` and options `{ ...opts, allowDeletionEntryData: true }`,
where `opts` merges defaults with the caller options; the literal `true` again
overrides any caller-supplied `allowDeletionEntryData`. -/
def deleteJSON (cache : RevisionCache) (publicKey dataKey : String)
    (customAllowDeletionEntryData : Option Bool)
    (setEntryResult : Except String Unit) :
    Except String RegistryEntry × RevisionCache :=
  setEntryData cache publicKey dataKey DELETION_ENTRY_DATA true setEntryResult

/-- `wasRegistryEntryDeleted` from skydb.ts: the entry payload equals the
all-zero empty skylink, byte for byte. -/
def wasRegistryEntryDeleted (entry : RegistryEntry) : Bool :=
  areEqualUint8Arrays entry.data EMPTY_SKYLINK

/-- Consistency error thrown by `getSkyDBRegistryEntryAndUpdateCache`. -/
def higherRevisionErrMsg : String :=
  "A higher revision number for this userID and path is already cached"

/-- The JavaScript truthiness test on `bigint | undefined`, as used by
`if (cachedRevision && ...)`: `undefined` and `0n` are falsy. -/
def bigintTruthy : Option Int → Bool
  | none => false
  | some v => v != 0

/-- `getSkyDBRegistryEntryAndUpdateCache` from skydb.ts. The registry
collaborator outcome is the parameter `getEntryResult` (`.error` for a
network/signature/parse failure, `.ok none` for a 404, `.ok (some entry)` for
a found entry). On a failure or a 404 the cache is untouched. On a found
entry, if a truthy cached revision exceeds the entry's revision a consistency
error is thrown with the cache untouched; otherwise the cache is set to the
entry's revision, and afterwards an entry holding the deletion sentinel is
classified as deleted and reported as `none`. -/
def getSkyDBRegistryEntryAndUpdateCache (cache : RevisionCache)
    (publicKey dataKey : String)
    (getEntryResult : Except String (Option RegistryEntry)) :
    Except String (Option RegistryEntry) × RevisionCache :=
  match getEntryResult with
  | .error e => (.error e, cache)
  | .ok none => (.ok none, cache)
  | .ok (some entry) =>
    let cacheKey := getCacheKey publicKey dataKey
    let cachedRev := cache cacheKey
    let newRevision := entry.revision
    if bigintTruthy cachedRev && decide (newRevision < cachedRev.getD 0) then
      (.error higherRevisionErrMsg, cache)
    else
      let cache' : RevisionCache := fun k => if k = cacheKey then some newRevision else cache k
      if wasRegistryEntryDeleted entry then (.ok none, cache')
      else (.ok (some entry), cache')

/-- `getEntryData` from skydb.ts: projects the entry payload out of
`getSkyDBRegistryEntryAndUpdateCache`. -/
def getEntryData (cache : RevisionCache) (publicKey dataKey : String)
    (getEntryResult : Except String (Option RegistryEntry)) :
    Except String (Option (List Nat)) × RevisionCache :=
  match getSkyDBRegistryEntryAndUpdateCache cache publicKey dataKey getEntryResult with
  | (.error e, c) => (.error e, c)
  | (.ok none, c) => (.ok none, c)
  | (.ok (some entry), c) => (.ok (some entry.data), c)

/-- A JSON-like JavaScript value, as produced by the download collaborator in
`getJSON`. Numbers are embedded as `Int` (only integral values occur in the
envelope logic). -/
inductive Js where
  | null
  | bool (b : Bool)
  | num (n : Int)
  | str (s : String)
  | arr (elems : List Js)
  | obj (fields : List (String × Js))

/-- JavaScript truthiness of a value: `null`, `false`, `0` and `""` are falsy;
arrays and objects are always truthy. -/
def Js.truthy : Js → Bool
  | .null => false
  | .bool b => b
  | .num n => n != 0
  | .str s => s != ""
  | .arr _ => true
  | .obj _ => true

/-- JavaScript `typeof v === "object"`: true for `null`, arrays and objects. -/
def jsTypeofObject : Js → Bool
  | .null => true
  | .arr _ => true
  | .obj _ => true
  | _ => false

/-- Whether the value is the JavaScript `null`. -/
def Js.isNull : Js → Bool
  | .null => true
  | _ => false

/-- Property access `v[key]`: a lookup on objects, `undefined` (`none`)
elsewhere (the envelope fields are never numeric indices, so array index
access does not arise). -/
def Js.getField : Js → String → Option Js
  | .obj fields, key => (fields.find? (fun p => p.1 == key)).map (fun p => p.2)
  | _, _ => none

/-- Truthiness of a possibly-`undefined` value. -/
def truthyOpt : Option Js → Bool
  | none => false
  | some v => v.truthy

/-- Error thrown by `getJSON` when the downloaded body is not an object. -/
def notJsonErrMsg : String :=
  "File data for the entry at data key is not JSON"

/-- Error thrown by `getJSON` when the unwrapped payload field is not an
object. -/
def dataFieldNotJsonErrMsg : String :=
  "File data _data for the entry at data key is not JSON"

/-- The envelope-unwrapping step of `getJSON` (skydb.ts lines 184-197),
applied to the downloaded body `data`: throw if the body is not object-typed
or is null; return the body as-is when NOT both `data["_data"]` and
`data["_v"]` are truthy (legacy payload); otherwise take the `_data` field,
throw if it is not object-typed (the code rechecks `data === null` here, kept
verbatim), and return it. -/
def getJSONUnwrap (data : Js) : Except String Js :=
  if !(jsTypeofObject data) || data.isNull then .error notJsonErrMsg
  else if !(truthyOpt (data.getField "_data") && truthyOpt (data.getField "_v")) then
    .ok data
  else
    let actualData := (data.getField "_data").getD .null
    if !(jsTypeofObject actualData) || data.isNull then .error dataFieldNotJsonErrMsg
    else .ok actualData

/-- The predicate used by the claim's wording: the object lacks both the
payload field `_data` and the envelope-version field `_v`. -/
def lacksPayloadAndVersionFields (data : Js) : Bool :=
  (data.getField "_data").isNone && (data.getField "_v").isNone

/-- Modelled from the spec: the base64url alphabet used for skylink string
encoding (`utils/encoding` is not part of the sources). -/
def base64UrlAlphabet : List Char :=
  "ABCDEFGHIJKLMNOPQRSTUVWXYZabcdefghijklmnopqrstuvwxyz0123456789-_".toList

/-- Character at the given 6-bit index of the base64url alphabet. -/
def b64Char (i : Nat) : Char :=
  base64UrlAlphabet.getD i 'A'

/-- Modelled from the spec: unpadded base64url encoding of a byte sequence,
three input bytes per four output characters (`encodeSkylinkBase64` from
`utils/encoding` is not part of the sources; the spec fixes the string form of
a skylink as a base64url encoding of the raw bytes). -/
def encodeBase64Url : List Nat → List Char
  | [] => []
  | [b1] => [b64Char (b1 / 4), b64Char (b1 % 4 * 16)]
  | [b1, b2] => [b64Char (b1 / 4), b64Char (b1 % 4 * 16 + b2 / 16), b64Char (b2 % 16 * 4)]
  | b1 :: b2 :: b3 :: rest =>
    b64Char (b1 / 4) :: b64Char (b1 % 4 * 16 + b2 / 16) ::
      b64Char (b2 % 16 * 4 + b3 / 64) :: b64Char (b3 % 64) :: encodeBase64Url rest

/-- `encodeSkylinkBase64` applied to raw skylink bytes, producing the
base64url string. -/
def encodeSkylinkBase64 (bytes : List Nat) : String :=
  ⟨encodeBase64Url bytes⟩

/-- Modelled from the spec: `uint8ArrayToStringUtf8` from `utils/string` is
not part of the sources; it decodes a byte sequence to a string. Legacy
base64-encoded skylink payloads are ASCII, where the byte-per-character
decoding below coincides with UTF-8. -/
def uint8ArrayToStringUtf8 (bytes : List Nat) : String :=
  ⟨bytes.map Char.ofNat⟩

/-- Modelled from the spec: the canonical skylink URI scheme
(`URI_SKYNET_PREFIX` from `utils/url` is not part of the sources). -/
def uriSkynetPrefixStr : String := "sia://"

/-- Modelled from the spec: `formatSkylink` from `skylink/format` is not part
of the sources; the spec requires normalization to the canonical prefixed
string form, idempotently, with the empty string left alone. -/
def formatSkylink (skylink : String) : String :=
  if skylink = "" then skylink
  else if skylink.startsWith uriSkynetPrefixStr then skylink
  else uriSkynetPrefixStr ++ skylink

/-- Validation error thrown by `parseDataLink` for entry data of unexpected
length (static part of the `throwValidationError` message, which names the
expected length `RAW_SKYLINK_SIZE` = 34 bytes). -/
def dataLinkLengthErrMsg : String :=
  "Expected returned entry data entry.data to be length 34 bytes"

/-- `parseDataLink` from skydb.ts: when `legacy` is set (the `getJSON` path)
and the data has the legacy base64-encoded skylink string length, decode it as
a string; otherwise, data of the raw skylink length is base64url-encoded;
any other length throws the validation error naming the expected length.
`getRawBytes` calls this with `legacy = false`. -/
def parseDataLink (data : List Nat) (legacy : Bool) :
    Except String (String × String) :=
  if legacy && decide (data.length = BASE64_ENCODED_SKYLINK_SIZE) then
    let rawDataLink := uint8ArrayToStringUtf8 data
    .ok (rawDataLink, formatSkylink rawDataLink)
  else if data.length = RAW_SKYLINK_SIZE then
    let rawDataLink := encodeSkylinkBase64 data
    .ok (rawDataLink, formatSkylink rawDataLink)
  else .error dataLinkLengthErrMsg

/-- Modelled from the spec: the bucket search of `padFileSize` and
`checkPaddedBlock` (`encrypted_files` is not part of the sources; only its
tests are). The padding block for a size is 4 KiB times 2^n for the least n
with size at most 80 KiB times 2^n, matching every test vector; the search
stops at n = 31 exclusive, reproducing the JavaScript 32-bit shift range that
makes the tests' `Number.MAX_SAFE_INTEGER` input overflow. The first argument
of the auxiliary search is the remaining fuel, the second the next exponent. -/
def padSearchAux (size : Nat) : Nat → Nat → Option Nat
  | 0, _ => none
  | fuel + 1, n =>
    if size ≤ 2 ^ n * 80 * 1024 then some n
    else padSearchAux size fuel (n + 1)

/-- The least padding-bucket exponent for a size, `none` on overflow. -/
def padSearch (size : Nat) : Option Nat :=
  padSearchAux size 31 0

/-- Modelled from the spec: `padFileSize` rounds the size up to the next
multiple of the padding block of its bucket; `none` models the thrown
"Could not pad file size, overflow detected." error. -/
def padFileSize (initialSize : Nat) : Option Nat :=
  (padSearch initialSize).map (fun n =>
    if initialSize % (2 ^ n * 4 * 1024) = 0 then initialSize
    else initialSize - initialSize % (2 ^ n * 4 * 1024) + 2 ^ n * 4 * 1024)

/-- Modelled from the spec: `checkPaddedBlock` is the membership predicate of
the padded bucket sequence — the size must be a multiple of its bucket's
padding block; `none` models the thrown overflow error. -/
def checkPaddedBlock (size : Nat) : Option Bool :=
  (padSearch size).map (fun n => size % (2 ^ n * 4 * 1024) == 0)

/-- C5: if the cached revision for the (owner public key, data key) pair equals
the maximum allowed revision, `incrementCachedRevision` fails with the overflow
error and returns the cache unchanged; if the cached revision is below the
maximum, it stores and returns the cached value plus one, touching no other
key. -/
theorem incrementCachedRevision_overflow_spec (cache : RevisionCache) (pk dk : String) :
    (cachedRevision cache (getCacheKey pk dk) = MAX_REVISION →
      incrementCachedRevision cache pk dk = (.error maxRevisionErrMsg, cache)) ∧
    (cachedRevision cache (getCacheKey pk dk) < MAX_REVISION →
      ∃ c' : RevisionCache,
        incrementCachedRevision cache pk dk
          = (.ok (cachedRevision cache (getCacheKey pk dk) + 1), c') ∧
        c' (getCacheKey pk dk) = some (cachedRevision cache (getCacheKey pk dk) + 1) ∧
        ∀ k, k ≠ getCacheKey pk dk → c' k = cache k) := by
  constructor
  · intro h
    unfold cachedRevision at h
    simp only [incrementCachedRevision, incrementRevision, h]
    rw [if_pos (by omega)]
  · intro h
    unfold cachedRevision at h
    refine ⟨fun k => if k = getCacheKey pk dk then
      some ((cache (getCacheKey pk dk)).getD UNCACHED_REVISION_NUMBER + 1) else cache k,
      ?_, ?_, ?_⟩
    · simp only [incrementCachedRevision, incrementRevision]
      rw [if_neg (by omega)]
      rfl
    · simp
      rfl
    · intro k hk
      simp only [if_neg hk]

/-- Concrete instance of `incrementCachedRevision_overflow_spec`: from an empty
cache the increment reserves revision 0 = (-1) + 1 and stores it. -/
theorem incrementCachedRevision_overflow_spec_witness :
    ∃ c' : RevisionCache,
      incrementCachedRevision (fun _ => none) "a" "b"
        = (.ok (cachedRevision (fun _ => none) (getCacheKey "a" "b") + 1), c') ∧
      c' (getCacheKey "a" "b") = some (cachedRevision (fun _ => none) (getCacheKey "a" "b") + 1) ∧
      ∀ k, k ≠ getCacheKey "a" "b" → c' k = (fun _ => none : RevisionCache) k :=
  (incrementCachedRevision_overflow_spec (fun _ => none) "a" "b").2 (by decide)

/-- Helper: on a cached revision below the maximum, `incrementCachedRevision`
returns the incremented revision and the pointwise-updated cache. -/
theorem incrementCachedRevision_ok_eq (cache : RevisionCache) (pk dk : String)
    (h : cachedRevision cache (getCacheKey pk dk) < MAX_REVISION) :
    incrementCachedRevision cache pk dk
      = (.ok (cachedRevision cache (getCacheKey pk dk) + 1),
         fun k => if k = getCacheKey pk dk then
           some (cachedRevision cache (getCacheKey pk dk) + 1) else cache k) := by
  unfold cachedRevision at *
  simp only [incrementCachedRevision, incrementRevision]
  rw [if_neg (by omega)]

/-- Helper: the pointwise behavior of `decrementCachedRevision`. -/
theorem decrementCachedRevision_apply (cache : RevisionCache) (pk dk k : String) :
    decrementCachedRevision cache pk dk k
      = if k = getCacheKey pk dk then (cache k).map (fun v => v - 1) else cache k := rfl

/-- C1: the write-path revision reservation protocol, for `setEntryData` and
`setJSON`. A successful write reserves and stores exactly the effective cached
revision plus one (so the first successful write on a fresh pair, whose
effective cached revision is the uncached sentinel -1, reserves revision 0,
and each subsequent successful write reserves the previously reserved revision
plus one); a write that fails after the reservation (registry storage for
`setEntryData`; upload or registry storage for `setJSON`) re-throws the
failure and restores the cached revision for the pair to its exact
pre-reservation value, leaving every other key untouched. -/
theorem setWrite_revision_protocol (cache : RevisionCache) (pk dk : String)
    (data link : List Nat) (allow : Bool) (e : String) :
    (validateEntryData data allow = .ok () →
      cachedRevision cache (getCacheKey pk dk) < MAX_REVISION →
      ∃ c' : RevisionCache,
        setEntryData cache pk dk data allow (.ok ())
          = (.ok ⟨dk, data, cachedRevision cache (getCacheKey pk dk) + 1⟩, c') ∧
        c' (getCacheKey pk dk) = some (cachedRevision cache (getCacheKey pk dk) + 1) ∧
        ∀ k, k ≠ getCacheKey pk dk → c' k = cache k) ∧
    (cachedRevision cache (getCacheKey pk dk) < MAX_REVISION →
      ∃ c' : RevisionCache,
        setJSON cache pk dk (.ok link) (.ok ())
          = (.ok ⟨dk, link, cachedRevision cache (getCacheKey pk dk) + 1⟩, c') ∧
        c' (getCacheKey pk dk) = some (cachedRevision cache (getCacheKey pk dk) + 1) ∧
        ∀ k, k ≠ getCacheKey pk dk → c' k = cache k) ∧
    (validateEntryData data allow = .ok () →
      cachedRevision cache (getCacheKey pk dk) < MAX_REVISION →
      ∃ c' : RevisionCache,
        setEntryData cache pk dk data allow (.error e) = (.error e, c') ∧
        cachedRevision c' (getCacheKey pk dk) = cachedRevision cache (getCacheKey pk dk) ∧
        ∀ k, k ≠ getCacheKey pk dk → c' k = cache k) ∧
    (cachedRevision cache (getCacheKey pk dk) < MAX_REVISION →
      ∃ c' : RevisionCache,
        setJSON cache pk dk (.error e) (.ok ()) = (.error e, c') ∧
        cachedRevision c' (getCacheKey pk dk) = cachedRevision cache (getCacheKey pk dk) ∧
        ∀ k, k ≠ getCacheKey pk dk → c' k = cache k) ∧
    (cachedRevision cache (getCacheKey pk dk) < MAX_REVISION →
      ∃ c' : RevisionCache,
        setJSON cache pk dk (.ok link) (.error e) = (.error e, c') ∧
        cachedRevision c' (getCacheKey pk dk) = cachedRevision cache (getCacheKey pk dk) ∧
        ∀ k, k ≠ getCacheKey pk dk → c' k = cache k) := by
  refine ⟨?_, ?_, ?_, ?_, ?_⟩
  · intro hv h
    refine ⟨fun k => if k = getCacheKey pk dk then
        some (cachedRevision cache (getCacheKey pk dk) + 1) else cache k, ?_, ?_, ?_⟩
    · simp only [setEntryData, hv, incrementCachedRevision_ok_eq cache pk dk h]
    · simp
    · intro k hk
      simp only [if_neg hk]
  · intro h
    refine ⟨fun k => if k = getCacheKey pk dk then
        some (cachedRevision cache (getCacheKey pk dk) + 1) else cache k, ?_, ?_, ?_⟩
    · simp only [setJSON, incrementCachedRevision_ok_eq cache pk dk h]
    · simp
    · intro k hk
      simp only [if_neg hk]
  · intro hv h
    refine ⟨decrementCachedRevision (fun k => if k = getCacheKey pk dk then
        some (cachedRevision cache (getCacheKey pk dk) + 1) else cache k) pk dk, ?_, ?_, ?_⟩
    · simp only [setEntryData, hv, incrementCachedRevision_ok_eq cache pk dk h]
    · simp [decrementCachedRevision, cachedRevision]
    · intro k hk
      simp only [decrementCachedRevision_apply, if_neg hk]
  · intro h
    refine ⟨decrementCachedRevision (fun k => if k = getCacheKey pk dk then
        some (cachedRevision cache (getCacheKey pk dk) + 1) else cache k) pk dk, ?_, ?_, ?_⟩
    · simp only [setJSON, incrementCachedRevision_ok_eq cache pk dk h]
    · simp [decrementCachedRevision, cachedRevision]
    · intro k hk
      simp only [decrementCachedRevision_apply, if_neg hk]
  · intro h
    refine ⟨decrementCachedRevision (fun k => if k = getCacheKey pk dk then
        some (cachedRevision cache (getCacheKey pk dk) + 1) else cache k) pk dk, ?_, ?_, ?_⟩
    · simp only [setJSON, incrementCachedRevision_ok_eq cache pk dk h]
    · simp [decrementCachedRevision, cachedRevision]
    · intro k hk
      simp only [decrementCachedRevision_apply, if_neg hk]

/-- Concrete instance of `setWrite_revision_protocol`: from an empty cache the
first successful `setEntryData` stores revision 0; from a cache holding
revision 0 a second successful write stores revision 1; and a write failing at
registry storage restores the cached revision. -/
theorem setWrite_revision_protocol_witness :
    (∃ c' : RevisionCache,
      setEntryData (fun _ => none) "pk" "dk" (List.replicate 34 7) false (.ok ())
        = (.ok ⟨"dk", List.replicate 34 7, cachedRevision (fun _ => none) (getCacheKey "pk" "dk") + 1⟩, c') ∧
      c' (getCacheKey "pk" "dk") = some (cachedRevision (fun _ => none) (getCacheKey "pk" "dk") + 1) ∧
      ∀ k, k ≠ getCacheKey "pk" "dk" → c' k = (fun _ => none : RevisionCache) k) ∧
    (∃ c' : RevisionCache,
      setEntryData (fun k => if k = "pk/dk" then some 0 else none) "pk" "dk"
          (List.replicate 34 7) false (.ok ())
        = (.ok ⟨"dk", List.replicate 34 7,
            cachedRevision (fun k => if k = "pk/dk" then some 0 else none) (getCacheKey "pk" "dk") + 1⟩, c') ∧
      c' (getCacheKey "pk" "dk")
        = some (cachedRevision (fun k => if k = "pk/dk" then some 0 else none) (getCacheKey "pk" "dk") + 1) ∧
      ∀ k, k ≠ getCacheKey "pk" "dk" →
        c' k = (fun k => if k = "pk/dk" then some 0 else none : RevisionCache) k) ∧
    (∃ c' : RevisionCache,
      setEntryData (fun k => if k = "pk/dk" then some 0 else none) "pk" "dk"
          (List.replicate 34 7) false (.error "boom") = (.error "boom", c') ∧
      cachedRevision c' (getCacheKey "pk" "dk")
        = cachedRevision (fun k => if k = "pk/dk" then some 0 else none) (getCacheKey "pk" "dk") ∧
      ∀ k, k ≠ getCacheKey "pk" "dk" →
        c' k = (fun k => if k = "pk/dk" then some 0 else none : RevisionCache) k) :=
  ⟨(setWrite_revision_protocol (fun _ => none) "pk" "dk"
      (List.replicate 34 7) [] false "boom").1 rfl (by decide),
   (setWrite_revision_protocol (fun k => if k = "pk/dk" then some 0 else none) "pk" "dk"
      (List.replicate 34 7) [] false "boom").1 rfl (by decide),
   (setWrite_revision_protocol (fun k => if k = "pk/dk" then some 0 else none) "pk" "dk"
      (List.replicate 34 7) [] false "boom").2.2.1 rfl (by decide)⟩

/-- C6: `setEntryData` rejects data longer than the 70-byte maximum with a
validation error, and rejects data equal to the all-zero deletion sentinel
unless `allowDeletionEntryData` is true; both rejections happen in the
synchronous `validateEntryData` step before the revision cache is touched and
before the registry collaborator outcome is consumed, so the rejected call
returns the cache unchanged for every collaborator outcome. -/
theorem setEntryData_validation_spec (cache : RevisionCache) (pk dk : String)
    (data : List Nat) (allow : Bool) (res : Except String Unit) :
    (MAX_ENTRY_LENGTH < data.length →
      validateEntryData data allow = .error entryDataTooLargeErrMsg ∧
      setEntryData cache pk dk data allow res = (.error entryDataTooLargeErrMsg, cache)) ∧
    (data = DELETION_ENTRY_DATA → allow = false →
      validateEntryData data allow = .error deletionSentinelErrMsg ∧
      setEntryData cache pk dk data allow res = (.error deletionSentinelErrMsg, cache)) := by
  constructor
  · intro h
    have hval : validateEntryData data allow = .error entryDataTooLargeErrMsg := by
      unfold validateEntryData
      rw [if_pos h]
    exact ⟨hval, by simp only [setEntryData, hval]⟩
  · intro hdata hallow
    subst hdata hallow
    have hval : validateEntryData DELETION_ENTRY_DATA false = .error deletionSentinelErrMsg := rfl
    exact ⟨hval, by simp only [setEntryData, hval]⟩

/-- Concrete instance of `setEntryData_validation_spec`: a 71-byte payload and
the 34-byte all-zero sentinel are both rejected with the cache unchanged. -/
theorem setEntryData_validation_spec_witness :
    (validateEntryData (List.replicate 71 1) false = .error entryDataTooLargeErrMsg ∧
      setEntryData (fun _ => none) "pk" "dk" (List.replicate 71 1) false (.ok ())
        = (.error entryDataTooLargeErrMsg, (fun _ => none : RevisionCache))) ∧
    (validateEntryData DELETION_ENTRY_DATA false = .error deletionSentinelErrMsg ∧
      setEntryData (fun _ => none) "pk" "dk" DELETION_ENTRY_DATA false (.ok ())
        = (.error deletionSentinelErrMsg, (fun _ => none : RevisionCache))) :=
  ⟨(setEntryData_validation_spec (fun _ => none) "pk" "dk"
      (List.replicate 71 1) false (.ok ())).1 (by decide),
   (setEntryData_validation_spec (fun _ => none) "pk" "dk"
      DELETION_ENTRY_DATA false (.ok ())).2 rfl rfl⟩

/-- C10: `deleteJSON` and `deleteEntryData` always call `setEntryData` with
exactly the all-zero deletion sentinel and with `allowDeletionEntryData = true`
regardless of the caller-supplied option value, the sentinel check in
`validateEntryData` therefore never rejects them, and when the registry store
succeeds the entry written is the sentinel at the next reserved revision. -/
theorem deleteEntryData_sentinel_override (cache : RevisionCache) (pk dk : String)
    (opts opts2 : Option Bool) (res : Except String Unit) :
    deleteEntryData cache pk dk opts res
      = setEntryData cache pk dk DELETION_ENTRY_DATA true res ∧
    deleteJSON cache pk dk opts2 res
      = setEntryData cache pk dk DELETION_ENTRY_DATA true res ∧
    validateEntryData DELETION_ENTRY_DATA true = .ok () ∧
    (cachedRevision cache (getCacheKey pk dk) < MAX_REVISION → res = .ok () →
      ∃ c' : RevisionCache,
        deleteEntryData cache pk dk opts res
          = (.ok ⟨dk, DELETION_ENTRY_DATA, cachedRevision cache (getCacheKey pk dk) + 1⟩, c') ∧
        deleteJSON cache pk dk opts2 res
          = (.ok ⟨dk, DELETION_ENTRY_DATA, cachedRevision cache (getCacheKey pk dk) + 1⟩, c')) := by
  refine ⟨rfl, rfl, rfl, ?_⟩
  intro h hres
  subst hres
  refine ⟨fun k => if k = getCacheKey pk dk then
      some (cachedRevision cache (getCacheKey pk dk) + 1) else cache k, ?_, ?_⟩
  · show setEntryData cache pk dk DELETION_ENTRY_DATA true (.ok ()) = _
    have hval : validateEntryData DELETION_ENTRY_DATA true = .ok () := rfl
    simp only [setEntryData, hval, incrementCachedRevision_ok_eq cache pk dk h]
  · show setEntryData cache pk dk DELETION_ENTRY_DATA true (.ok ()) = _
    have hval : validateEntryData DELETION_ENTRY_DATA true = .ok () := rfl
    simp only [setEntryData, hval, incrementCachedRevision_ok_eq cache pk dk h]

/-- Concrete instance of `deleteEntryData_sentinel_override`: even with the
caller explicitly supplying `allowDeletionEntryData = false`, deletion from an
empty cache succeeds and writes the sentinel at revision 0. -/
theorem deleteEntryData_sentinel_override_witness :
    ∃ c' : RevisionCache,
      deleteEntryData (fun _ => none) "pk" "dk" (some false) (.ok ())
        = (.ok ⟨"dk", DELETION_ENTRY_DATA,
            cachedRevision (fun _ => none) (getCacheKey "pk" "dk") + 1⟩, c') ∧
      deleteJSON (fun _ => none) "pk" "dk" (some false) (.ok ())
        = (.ok ⟨"dk", DELETION_ENTRY_DATA,
            cachedRevision (fun _ => none) (getCacheKey "pk" "dk") + 1⟩, c') :=
  (deleteEntryData_sentinel_override (fun _ => none) "pk" "dk"
    (some false) (some false) (.ok ())).2.2.2 (by decide) rfl

/-- C2: on the shared read path, if the cache already holds revision `r` for
the pair and the registry returns an entry whose (unsigned) revision is
strictly below `r`, the read fails with the consistency error and the cache is
returned unchanged, still holding `r`; otherwise (cache holding `r` less than
or equal to the entry's revision, or cache empty for the pair) the cache is
set to the entry's reported revision. -/
theorem read_consistency_guard (cache : RevisionCache) (pk dk : String)
    (entry : RegistryEntry) (r : Int) :
    (cache (getCacheKey pk dk) = some r → 0 ≤ entry.revision → entry.revision < r →
      getSkyDBRegistryEntryAndUpdateCache cache pk dk (.ok (some entry))
        = (.error higherRevisionErrMsg, cache)) ∧
    (cache (getCacheKey pk dk) = some r → r ≤ entry.revision →
      (getSkyDBRegistryEntryAndUpdateCache cache pk dk (.ok (some entry))).2 (getCacheKey pk dk)
        = some entry.revision) ∧
    (cache (getCacheKey pk dk) = none →
      (getSkyDBRegistryEntryAndUpdateCache cache pk dk (.ok (some entry))).2 (getCacheKey pk dk)
        = some entry.revision) := by
  refine ⟨?_, ?_, ?_⟩
  · intro hc hnn hlt
    have hr : r ≠ 0 := by omega
    simp only [getSkyDBRegistryEntryAndUpdateCache, hc, bigintTruthy]
    rw [if_pos]
    simp only [Option.getD]
    simp [hr, hlt]
  · intro hc hle
    have hguard : (bigintTruthy (cache (getCacheKey pk dk))
        && decide (entry.revision < (cache (getCacheKey pk dk)).getD 0)) = false := by
      rw [hc]
      simp only [bigintTruthy, Option.getD]
      by_cases h0 : r = 0
      · simp [h0]
      · simp [h0]
        omega
    simp only [getSkyDBRegistryEntryAndUpdateCache, hguard]
    rw [if_neg (by simp [hguard])]
    by_cases hdel : wasRegistryEntryDeleted entry
    · simp [hdel]
    · simp [hdel]
  · intro hc
    have hguard : (bigintTruthy (cache (getCacheKey pk dk))
        && decide (entry.revision < (cache (getCacheKey pk dk)).getD 0)) = false := by
      rw [hc]
      simp [bigintTruthy]
    simp only [getSkyDBRegistryEntryAndUpdateCache]
    rw [if_neg (by simp [hguard])]
    by_cases hdel : wasRegistryEntryDeleted entry
    · simp [hdel]
    · simp [hdel]

/-- Concrete instance of `read_consistency_guard`: with revision 2 cached, an
entry reporting revision 1 fails the consistency check and leaves the cache at
2, and an entry reporting revision 3 updates the cache to 3. -/
theorem read_consistency_guard_witness :
    (getSkyDBRegistryEntryAndUpdateCache
        (fun k => if k = "pk/dk" then some 2 else none) "pk" "dk"
        (.ok (some ⟨"dk", List.replicate 34 7, 1⟩))
      = (.error higherRevisionErrMsg,
         (fun k => if k = "pk/dk" then some 2 else none : RevisionCache))) ∧
    ((getSkyDBRegistryEntryAndUpdateCache
        (fun k => if k = "pk/dk" then some 2 else none) "pk" "dk"
        (.ok (some ⟨"dk", List.replicate 34 7, 3⟩))).2 (getCacheKey "pk" "dk")
      = some 3) :=
  ⟨(read_consistency_guard (fun k => if k = "pk/dk" then some 2 else none) "pk" "dk"
      ⟨"dk", List.replicate 34 7, 1⟩ 2).1 (by decide) (by decide) (by decide),
   (read_consistency_guard (fun k => if k = "pk/dk" then some 2 else none) "pk" "dk"
      ⟨"dk", List.replicate 34 7, 3⟩ 2).2.1 (by decide) (by decide)⟩

/-- Counterexample to C3 as stated: an entry IS found (the registry outcome is
`.ok (some entry)` with reported revision 3), yet the cache is NOT updated to
the entry's revision — a higher cached revision (5) makes the read throw the
consistency error and leaves the cache at 5. -/
theorem read_cacheUpdate_unconditional_cex :
    ((getSkyDBRegistryEntryAndUpdateCache (fun k => if k = "pk/dk" then some 5 else none)
        "pk" "dk" (.ok (some ⟨"dk", List.replicate 34 7, 3⟩))).2 (getCacheKey "pk" "dk")
      ≠ some (3 : Int)) ∧
    ((getSkyDBRegistryEntryAndUpdateCache (fun k => if k = "pk/dk" then some 5 else none)
        "pk" "dk" (.ok (some ⟨"dk", List.replicate 34 7, 3⟩))).2 (getCacheKey "pk" "dk")
      = some (5 : Int)) ∧
    ((getSkyDBRegistryEntryAndUpdateCache (fun k => if k = "pk/dk" then some 5 else none)
        "pk" "dk" (.ok (some ⟨"dk", List.replicate 34 7, 3⟩))).1
      = .error higherRevisionErrMsg) :=
  ⟨by decide, by decide, rfl⟩

/-- C3 (amended): on the shared read path, a collaborator failure propagates
with the cache untouched; a not-found outcome returns "no data" with the cache
untouched; and for a found entry, provided no strictly higher truthy revision
is already cached, the cache is updated to the entry's reported revision even
when the payload equals the deletion sentinel, with "no data" returned in the
sentinel case and the entry returned otherwise. -/
theorem read_cacheUpdate_branches (cache : RevisionCache) (pk dk : String) :
    (∀ e, getSkyDBRegistryEntryAndUpdateCache cache pk dk (.error e) = (.error e, cache)) ∧
    (getSkyDBRegistryEntryAndUpdateCache cache pk dk (.ok none) = (.ok none, cache)) ∧
    (∀ entry : RegistryEntry,
      (bigintTruthy (cache (getCacheKey pk dk))
          && decide (entry.revision < (cache (getCacheKey pk dk)).getD 0)) = false →
      (getSkyDBRegistryEntryAndUpdateCache cache pk dk (.ok (some entry))).2 (getCacheKey pk dk)
        = some entry.revision ∧
      (∀ k, k ≠ getCacheKey pk dk →
        (getSkyDBRegistryEntryAndUpdateCache cache pk dk (.ok (some entry))).2 k = cache k) ∧
      (wasRegistryEntryDeleted entry = true →
        (getSkyDBRegistryEntryAndUpdateCache cache pk dk (.ok (some entry))).1 = .ok none) ∧
      (wasRegistryEntryDeleted entry = false →
        (getSkyDBRegistryEntryAndUpdateCache cache pk dk (.ok (some entry))).1
          = .ok (some entry))) := by
  refine ⟨fun e => rfl, rfl, ?_⟩
  intro entry hguard
  refine ⟨?_, ?_, ?_, ?_⟩
  · simp only [getSkyDBRegistryEntryAndUpdateCache]
    rw [if_neg (by simp [hguard])]
    by_cases hdel : wasRegistryEntryDeleted entry
    · simp [hdel]
    · simp [hdel]
  · intro k hk
    simp only [getSkyDBRegistryEntryAndUpdateCache]
    rw [if_neg (by simp [hguard])]
    by_cases hdel : wasRegistryEntryDeleted entry
    · simp [hdel, if_neg hk]
    · simp [hdel, if_neg hk]
  · intro hdel
    simp only [getSkyDBRegistryEntryAndUpdateCache]
    rw [if_neg (by simp [hguard])]
    simp [hdel]
  · intro hdel
    simp only [getSkyDBRegistryEntryAndUpdateCache]
    rw [if_neg (by simp [hguard])]
    simp [hdel]

/-- Concrete instance of `read_cacheUpdate_branches`: from an empty cache, a
found entry carrying the deletion sentinel at revision 7 updates the cache to
7 and returns "no data". -/
theorem read_cacheUpdate_branches_witness :
    (getSkyDBRegistryEntryAndUpdateCache (fun _ => none) "pk" "dk"
        (.ok (some ⟨"dk", DELETION_ENTRY_DATA, 7⟩))).2 (getCacheKey "pk" "dk")
      = some (7 : Int) ∧
    (∀ k, k ≠ getCacheKey "pk" "dk" →
      (getSkyDBRegistryEntryAndUpdateCache (fun _ => none) "pk" "dk"
        (.ok (some ⟨"dk", DELETION_ENTRY_DATA, 7⟩))).2 k = (fun _ => none : RevisionCache) k) ∧
    ((getSkyDBRegistryEntryAndUpdateCache (fun _ => none) "pk" "dk"
        (.ok (some ⟨"dk", DELETION_ENTRY_DATA, 7⟩))).1 = .ok none) := by
  have h := (read_cacheUpdate_branches (fun _ => none) "pk" "dk").2.2
    ⟨"dk", DELETION_ENTRY_DATA, 7⟩ (by decide)
  exact ⟨h.1, h.2.1, h.2.2.1 (by decide)⟩

/-- Counterexample to C4 as stated: the downloaded object
`{"_data": {"k": 1}}` has the payload field `_data` (so it does not lack both
wrapper fields), yet `getJSON` returns it as-is, because the code tests the
conjunction of the truthiness of `_data` and `_v`, not the absence of both. -/
theorem getJSONUnwrap_legacy_cex :
    getJSONUnwrap (Js.obj [("_data", Js.obj [("k", Js.num 1)])])
      = .ok (Js.obj [("_data", Js.obj [("k", Js.num 1)])]) ∧
    lacksPayloadAndVersionFields (Js.obj [("_data", Js.obj [("k", Js.num 1)])]) = false :=
  ⟨rfl, rfl⟩

/-- C4 (amended): for every downloaded object (non-null, object-typed) in
`getJSON`, the object is returned as-is exactly when NOT both its `_data`
field and its `_v` field are truthy (in particular whenever either field is
absent); when both are truthy and the `_data` field is object-typed, the
operation unwraps and returns the `_data` payload field. -/
theorem getJSONUnwrap_envelope (data : Js) (hobj : jsTypeofObject data = true)
    (hnull : data.isNull = false) :
    (getJSONUnwrap data = .ok data ↔
      (truthyOpt (data.getField "_data") && truthyOpt (data.getField "_v")) = false ∨
        (data.getField "_data").getD .null = data) ∧
    ((truthyOpt (data.getField "_data") && truthyOpt (data.getField "_v")) = true →
      jsTypeofObject ((data.getField "_data").getD .null) = true →
      getJSONUnwrap data = .ok ((data.getField "_data").getD .null)) := by
  constructor
  · constructor
    · intro h
      by_cases hw : (truthyOpt (data.getField "_data") && truthyOpt (data.getField "_v")) = true
      · right
        unfold getJSONUnwrap at h
        rw [if_neg (by simp [hobj, hnull]), if_neg (by simp [hw])] at h
        by_cases hty : jsTypeofObject ((data.getField "_data").getD .null) = true
        · rw [if_neg (by simp [hty, hnull])] at h
          exact Except.ok.inj h
        · rw [Bool.not_eq_true] at hty
          rw [if_pos (by simp [hty, hnull])] at h
          cases h
      · left
        simpa using hw
    · intro h
      rcases h with h | h
      · unfold getJSONUnwrap
        rw [if_neg (by simp [hobj, hnull]), if_pos (by simp [h])]
      · unfold getJSONUnwrap
        rw [if_neg (by simp [hobj, hnull])]
        by_cases hw : (truthyOpt (data.getField "_data") && truthyOpt (data.getField "_v")) = true
        · rw [if_neg (by simp [hw])]
          rw [if_neg (by simp only [h, hobj, hnull, Bool.not_true, Bool.or_false]; simp)]
          rw [h]
        · rw [Bool.not_eq_true] at hw
          rw [if_pos (by simp [hw])]
  · intro hw hty
    unfold getJSONUnwrap
    rw [if_neg (by simp [hobj, hnull]), if_neg (by simp [hw]),
      if_neg (by simp [hty, hnull])]

/-- Concrete instance of `getJSONUnwrap_envelope`: the wrapped object
`{"_data": {"k": 1}, "_v": 2}` is unwrapped to its `_data` payload. -/
theorem getJSONUnwrap_envelope_witness :
    getJSONUnwrap (Js.obj [("_data", Js.obj [("k", Js.num 1)]), ("_v", Js.num 2)])
      = .ok (((Js.obj [("_data", Js.obj [("k", Js.num 1)]), ("_v", Js.num 2)]).getField
          "_data").getD .null) :=
  (getJSONUnwrap_envelope
    (Js.obj [("_data", Js.obj [("k", Js.num 1)]), ("_v", Js.num 2)]) rfl rfl).2 rfl rfl

/-- Counterexample to C7 as stated: on the `getRawBytes` read path
(`legacy = false`), a found entry payload of exactly the legacy base64-encoded
skylink string length (46 bytes) does NOT decode successfully — it is rejected
with the validation error, because only `getJSON` passes `legacy = true`. -/
theorem parseDataLink_rawBytes_legacy_cex :
    (List.replicate 46 65).length = BASE64_ENCODED_SKYLINK_SIZE ∧
    parseDataLink (List.replicate 46 65) false = .error dataLinkLengthErrMsg :=
  ⟨rfl, rfl⟩

/-- C7 (amended): for a found, non-deleted entry payload, a payload of the raw
binary skylink length decodes successfully on both read paths; a payload of
the legacy base64-encoded skylink string length decodes successfully on the
`getJSON` path (`legacy = true`) but is rejected on the `getRawBytes` path
(`legacy = false`); and a payload of any other length is rejected on both
paths with the validation error naming the expected length. -/
theorem parseDataLink_length_spec (data : List Nat) :
    (data.length = RAW_SKYLINK_SIZE → ∀ legacy,
      parseDataLink data legacy
        = .ok (encodeSkylinkBase64 data, formatSkylink (encodeSkylinkBase64 data))) ∧
    (data.length = BASE64_ENCODED_SKYLINK_SIZE →
      parseDataLink data true
        = .ok (uint8ArrayToStringUtf8 data, formatSkylink (uint8ArrayToStringUtf8 data)) ∧
      parseDataLink data false = .error dataLinkLengthErrMsg) ∧
    (data.length ≠ RAW_SKYLINK_SIZE → data.length ≠ BASE64_ENCODED_SKYLINK_SIZE →
      ∀ legacy, parseDataLink data legacy = .error dataLinkLengthErrMsg) := by
  refine ⟨?_, ?_, ?_⟩
  · intro hlen legacy
    have hne : data.length ≠ BASE64_ENCODED_SKYLINK_SIZE := by
      rw [hlen]
      decide
    unfold parseDataLink
    rw [if_neg (by simp [hne]), if_pos hlen]
  · intro hlen
    constructor
    · unfold parseDataLink
      rw [if_pos (by simp [hlen])]
    · have hne : data.length ≠ RAW_SKYLINK_SIZE := by
        rw [hlen]
        decide
      unfold parseDataLink
      rw [if_neg (by simp), if_neg hne]
  · intro hraw hleg legacy
    unfold parseDataLink
    rw [if_neg (by simp [hleg]), if_neg hraw]

/-- Concrete instance of `parseDataLink_length_spec`: a 34-byte payload
decodes on both paths, a 46-byte payload decodes only with `legacy = true`,
and a 10-byte payload is rejected on both. -/
theorem parseDataLink_length_spec_witness :
    (∀ legacy, parseDataLink (List.replicate 34 7) legacy
      = .ok (encodeSkylinkBase64 (List.replicate 34 7),
             formatSkylink (encodeSkylinkBase64 (List.replicate 34 7)))) ∧
    (parseDataLink (List.replicate 46 65) true
      = .ok (uint8ArrayToStringUtf8 (List.replicate 46 65),
             formatSkylink (uint8ArrayToStringUtf8 (List.replicate 46 65)))) ∧
    (∀ legacy, parseDataLink (List.replicate 10 1) legacy = .error dataLinkLengthErrMsg) :=
  ⟨(parseDataLink_length_spec (List.replicate 34 7)).1 rfl,
   ((parseDataLink_length_spec (List.replicate 46 65)).2.1 rfl).1,
   (parseDataLink_length_spec (List.replicate 10 1)).2.2 (by decide) (by decide)⟩

/-- Helper: soundness of the bucket search — a found exponent is in range,
admits the size, and is least among the searched exponents. -/
theorem padSearchAux_sound (size : Nat) :
    ∀ fuel n m, padSearchAux size fuel n = some m →
      n ≤ m ∧ m < n + fuel ∧ size ≤ 2 ^ m * 80 * 1024 ∧
        ∀ j, n ≤ j → j < m → 2 ^ j * 80 * 1024 < size := by
  intro fuel
  induction fuel with
  | zero => intro n m h; cases h
  | succ fuel ih =>
    intro n m h
    unfold padSearchAux at h
    by_cases hle : size ≤ 2 ^ n * 80 * 1024
    · rw [if_pos hle] at h
      cases h
      exact ⟨le_refl _, by omega, hle, fun j h1 h2 => absurd (lt_of_le_of_lt h1 h2) (lt_irrefl _)⟩
    · rw [if_neg hle] at h
      obtain ⟨h1, h2, h3, h4⟩ := ih (n + 1) m h
      refine ⟨by omega, by omega, h3, ?_⟩
      intro j hj1 hj2
      rcases Nat.eq_or_lt_of_le hj1 with hj | hj
      · subst hj
        omega
      · exact h4 j (by omega) hj2

/-- Helper: completeness of the bucket search — the least admissible exponent
in range is found. -/
theorem padSearchAux_complete (size : Nat) :
    ∀ fuel n m, n ≤ m → m < n + fuel → size ≤ 2 ^ m * 80 * 1024 →
      (∀ j, n ≤ j → j < m → 2 ^ j * 80 * 1024 < size) →
      padSearchAux size fuel n = some m := by
  intro fuel
  induction fuel with
  | zero => intro n m h1 h2; omega
  | succ fuel ih =>
    intro n m h1 h2 h3 h4
    unfold padSearchAux
    rcases Nat.eq_or_lt_of_le h1 with hnm | hnm
    · subst hnm
      rw [if_pos h3]
    · rw [if_neg (by have := h4 n (le_refl _) hnm; omega)]
      exact ih (n + 1) m hnm (by omega) h3 (fun j hj1 hj2 => h4 j (by omega) hj2)

/-- C9: for every valid (non-overflowing) size, the padded size is at least
the input, padding is idempotent, and the padded size is a member of the
padded bucket sequence. -/
theorem padFileSize_idempotent_spec (s p : Nat) (h : padFileSize s = some p) :
    s ≤ p ∧ padFileSize p = some p ∧ checkPaddedBlock p = some true := by
  obtain ⟨n, hn, hp⟩ := Option.map_eq_some'.mp h
  obtain ⟨-, hn31, hsle, hleast⟩ := padSearchAux_sound s 31 0 n hn
  have hB : 0 < 2 ^ n * 4 * 1024 := by positivity
  have h20 : 2 ^ n * 80 * 1024 = 20 * (2 ^ n * 4 * 1024) := by ring
  have hdm := Nat.div_add_mod s (2 ^ n * 4 * 1024)
  have hmodlt := Nat.mod_lt s hB
  have hple : s ≤ p ∧ p % (2 ^ n * 4 * 1024) = 0 ∧ p ≤ 2 ^ n * 80 * 1024 := by
    by_cases hs : s % (2 ^ n * 4 * 1024) = 0
    · rw [if_pos hs] at hp
      subst hp
      exact ⟨le_refl _, hs, by omega⟩
    · rw [if_neg hs] at hp
      have hslt : s < 20 * (2 ^ n * 4 * 1024) := by
        rcases Nat.lt_or_ge s (20 * (2 ^ n * 4 * 1024)) with h' | h'
        · exact h'
        · exfalso
          have hseq : s = 20 * (2 ^ n * 4 * 1024) := by omega
          rw [hseq, Nat.mul_mod_left] at hs
          exact hs rfl
      have hsub : s - s % (2 ^ n * 4 * 1024)
          = 2 ^ n * 4 * 1024 * (s / (2 ^ n * 4 * 1024)) := by omega
      have hdiv : s / (2 ^ n * 4 * 1024) < 20 := by
        rw [Nat.div_lt_iff_lt_mul hB]
        omega
      have hpeq : p = 2 ^ n * 4 * 1024 * (s / (2 ^ n * 4 * 1024) + 1) := by
        rw [← hp, hsub]
        ring
      refine ⟨by omega, ?_, ?_⟩
      · rw [hpeq]
        exact Nat.mul_mod_right _ _
      · rw [hpeq, h20]
        have hq : s / (2 ^ n * 4 * 1024) + 1 ≤ 20 := by omega
        calc 2 ^ n * 4 * 1024 * (s / (2 ^ n * 4 * 1024) + 1)
            ≤ 2 ^ n * 4 * 1024 * 20 := Nat.mul_le_mul_left _ hq
          _ = 20 * (2 ^ n * 4 * 1024) := by ring
  obtain ⟨hsp, hpmod, hpbound⟩ := hple
  have hsearch : padSearch p = some n := by
    unfold padSearch
    exact padSearchAux_complete p 31 0 n (Nat.zero_le _) (by omega) hpbound
      (fun j hj1 hj2 => lt_of_lt_of_le (hleast j hj1 hj2) hsp)
  refine ⟨hsp, ?_, ?_⟩
  · unfold padFileSize
    rw [hsearch, Option.map_some', if_pos hpmod]
  · unfold checkPaddedBlock
    rw [hsearch, Option.map_some']
    simp [hpmod]

/-- Concrete instance of `padFileSize_idempotent_spec`: 5 KiB pads to 8 KiB,
which is at least 5 KiB, pads to itself, and is a padded block. -/
theorem padFileSize_idempotent_spec_witness :
    padFileSize (5 * 1024) = some (8 * 1024) ∧
    (5 * 1024 ≤ 8 * 1024 ∧ padFileSize (8 * 1024) = some (8 * 1024) ∧
      checkPaddedBlock (8 * 1024) = some true) :=
  ⟨by decide, padFileSize_idempotent_spec (5 * 1024) (8 * 1024) (by decide)⟩

/-- Counterexample to C8 as stated: `padFileSize(100_000_000)` does not return
104 x 2^20 = 109051904; the input 100_000_000 (which is less than 100 MiB)
falls in the 8 MiB-block bucket and pads to 96 x 2^20 = 100663296. The test
vector behind the claim uses 100 MiB = 104857600, not 100_000_000. -/
theorem padFileSize_hundred_million_cex :
    padFileSize 100000000 = some 100663296 ∧
    (104 * 2 ^ 20 : Nat) = 109051904 ∧
    padFileSize 100000000 ≠ some (104 * 2 ^ 20) := by
  refine ⟨by decide, by decide, ?_⟩
  intro hcontra
  rw [(by decide : padFileSize 100000000 = some 100663296)] at hcontra
  cases hcontra

/-- C8 (amended): `padFileSize` applied to 100 MiB (104857600 = 100 x 2^20
bytes) returns exactly 104 x 2^20 bytes; `checkPaddedBlock(352 x 1024)` is
true and `checkPaddedBlock(351 x 1024)` is false. -/
theorem padFileSize_vectors :
    padFileSize (100 * 1048576) = some (104 * 1048576) ∧
    checkPaddedBlock (352 * 1024) = some true ∧
    checkPaddedBlock (351 * 1024) = some false := by
  refine ⟨by decide, by decide, by decide⟩
